import Mathlib

/-!
Verification of the offline test-execution and result-upload workflow of
`hbp_validation_framework/utils.py` (functions `prepare_run_test_offline`,
`run_test_offline`, `upload_test_result`, `run_test`).

The embedding is a shallow one: each Python function becomes a Lean function
from its explicit arguments plus a `World` record (the responses of the
external collaborators: the remote catalog, the datastore, the clock, the
test execution itself) and a filesystem value, to a result of type
`Except PyError α` together with the updated filesystem and a trace of the
externally visible operations performed, in their source order.

File contents are modelled at the level of parsed values: a JSON file is
modelled by the value `v` whose text is `json.dumps v`, and reading it with
`json.load` returns `v` (the standard-library round trip
`json.loads (json.dumps v) = v`); a pickle file is modelled by the score
record it holds.
-/

/-- JSON values as manipulated by the Python code: null, booleans, numbers,
strings, arrays and objects (an object is a key/value association list in
insertion order, the order `json.dumps` preserves unless `sort_keys` is
set). -/
inductive JVal where
  | jnull : JVal
  | jbool : Bool → JVal
  | jnum : Int → JVal
  | jstr : String → JVal
  | jarr : List JVal → JVal
  | jobj : List (String × JVal) → JVal

/-- Escape of a single character inside a JSON string literal, as performed
by `json.dumps`: quote and backslash are escaped, a newline becomes the two
characters backslash-n, every other character stands for itself (control
characters other than newline and non-ASCII escapes are not needed by any
string this development evaluates). -/
def escapeJsonChar (c : Char) : String :=
  if c = '"' then "\\\""
  else if c = '\\' then "\\\\"
  else if c = '\n' then "\\n"
  else String.singleton c

/-- Rendering of a string as a JSON string literal: surrounding quotes plus
character-wise escaping, as `json.dumps` does. -/
def renderJsonStr (s : String) : String :=
  "\"" ++ String.join (s.data.map escapeJsonChar) ++ "\""

mutual

/-- Model of `json.dumps` with the default separators: objects are rendered
as key/value pairs in list order (the callers below that correspond to
`sort_keys=True` build their objects with the keys already in sorted
order). -/
def pyJsonDumps : JVal → String
  | .jnull => "null"
  | .jbool b => if b then "true" else "false"
  | .jnum n => toString n
  | .jstr s => renderJsonStr s
  | .jarr xs => "[" ++ dumpsArr xs ++ "]"
  | .jobj fs => "\x7b" ++ dumpsObj fs ++ "\x7d"

/-- Comma-separated rendering of a JSON array body. -/
def dumpsArr : List JVal → String
  | [] => ""
  | [v] => pyJsonDumps v
  | v :: vs => pyJsonDumps v ++ ", " ++ dumpsArr vs

/-- Comma-separated rendering of a JSON object body. -/
def dumpsObj : List (String × JVal) → String
  | [] => ""
  | [(k, v)] => renderJsonStr k ++ ": " ++ pyJsonDumps v
  | (k, v) :: fs => renderJsonStr k ++ ": " ++ pyJsonDumps v ++ ", " ++ dumpsObj fs

end

/-- Field lookup in a JSON object body, leftmost binding first; this is the
subscript operation `test_info[key]` after `json.load`. -/
def lookupField : List (String × JVal) → String → Option JVal
  | [], _ => none
  | (k, v) :: rest, key => if k = key then some v else lookupField rest key

/-- Subscript access `v[key]` on a parsed JSON value; `none` models the
`KeyError` a Python mapping subscript raises for a missing key. -/
def JVal.getField : JVal → String → Option JVal
  | .jobj fs, key => lookupField fs key
  | _, _ => none

/-- Modulus of CPython hash values on a 64-bit build: `Py_hash_t` is 64 bits
wide. -/
def U64 : Nat := 18446744073709551616

/-- Model of the built-in `hash` applied to a `str`. Since Python 3.3 string
hashing is salted with a per-process value (`PYTHONHASHSEED`): the language
reference states that string hash values "are not predictable between
repeated invocations of Python", while they remain constant within one
process. The model is therefore a function of the process seed and of the
string: a 64-bit multiply-and-add fold over the characters seeded by the
process salt. Deterministic for a fixed seed; distinct seeds give distinct
values (the multiplier is odd, hence invertible modulo 2^64). -/
def pyHashStr (seed : Nat) (s : String) : Nat :=
  s.data.foldl (fun h c => (h * 1000003 + c.toNat) % U64) (seed % U64)

/-- A local filesystem path, modelled as its list of components; `os.path.join`
appends a component, `os.path.basename` takes the last component,
`os.path.dirname` drops it. `os.path.realpath` is the identity in this model
(a filesystem without symbolic links). -/
abbrev FPath := List String

/-- Last component of a path, as `os.path.basename`. -/
def pathBasename (p : FPath) : String := p.getLastD ""

/-- All but the last component of a path, as `os.path.dirname`. -/
def pathDirname (p : FPath) : FPath := p.dropLast

/-- The scheme of a URI as extracted by `urllib.parse.urlparse`: the part
before the first colon, or the empty string when there is no colon. -/
def uriScheme (s : String) : String :=
  if s.data.contains ':' then String.mk (s.data.takeWhile (fun c => c ≠ ':')) else ""

/-- The caller-supplied model object: the capability the code relies on is a
`name` attribute plus membership of the `sciunit.Model` class, recorded here
as a flag (the embedding of `isinstance(model, sciunit.Model)`). -/
structure ModelHandle where
  name : String
  isSciunitModel : Bool
deriving DecidableEq

/-- A Python value held in the score's `score` attribute: either a
JSON-serialisable value, or a non-serialisable object (such as a
`decimal.Decimal`) that `json.dumps(..., default=str)` replaces by its
`str()` rendering. -/
inductive PyVal where
  | jsonVal : JVal → PyVal
  | pyObj : String → PyVal

/-- The value `json.dumps(..., default=str)` serialises for a score value:
a serialisable value stands for itself; a non-serialisable object is
replaced by `str()` of it, which is then serialised as a JSON string.
Distinct score objects can collapse onto the same serialised value: the
string "0.5" and `Decimal("0.5")` (whose `str()` is "0.5") both serialise
to the quoted text 0.5. -/
def pyvalToJson : PyVal → JVal
  | .jsonVal v => v
  | .pyObj s => .jstr s

/-- The score record produced by `test.judge` and then decorated by
`run_test_offline` and `upload_test_result`: the score value, the
`related_data` mapping, the model reference `score.model`, the test instance
identity `score.test.uuid`, the `runtime` string, the execution timestamp
(modelled as a microsecond count; `str` of a datetime is modelled by
`timestampStr` below) and, once computed by the uploader, the
`score_hash`. -/
structure ScoreRec where
  score : PyVal
  related_data : List (String × JVal)
  model : ModelHandle
  test_uuid : String
  runtime : String
  exec_timestamp : Nat
  score_hash : Option String

/-- Rendering of a timestamp by `str`, as `json.dumps(..., default=str)`
applies it to a `datetime` value: an injective textual form of the
timestamp. -/
def timestampStr (t : Nat) : String := Nat.repr t

/-- Content of a local file: a JSON text file (identified with the value it
prints), a raw text file, or a pickle file holding a score record. -/
inductive FileContent where
  | json : JVal → FileContent
  | raw : String → FileContent
  | pickle : ScoreRec → FileContent

/-- The local filesystem: an association of paths to file contents, most
recent write first. -/
abbrev Fs := List (FPath × FileContent)

/-- Read a file (`none` when the path does not resolve to a file, the case
`os.path.isfile` reports false). -/
def fsGet : Fs → FPath → Option FileContent
  | [], _ => none
  | (q, c) :: rest, p => if q = p then some c else fsGet rest p

/-- Write a file. -/
def fsSet (fs : Fs) (p : FPath) (c : FileContent) : Fs := (p, c) :: fs

/-- The externally visible operations the workflow performs, in program
order: authentication at client construction, the remote catalog queries,
the datastore download, local file operations, the dynamic import, and the
test execution `test.judge`. -/
inductive Event where
  | auth : Event
  | getTestInstance : String → String → String → String → Event
  | getTestDefinition : String → Event
  | download : FPath → String → Event
  | writeFile : FPath → Event
  | isfile : FPath → Event
  | importModule : String → Event
  | readFile : FPath → Event
  | judge : Event
  | mkdir : FPath → Event
  | pickleDump : FPath → Event
  | pickleLoad : FPath → Event
  | findModelInstance : Event
  | getModelInstance : String → Event
  | getModel : String → Event
  | listResults : String → String → Event
  | registerResult : Event
deriving DecidableEq

/-- The Python exceptions the workflow can raise. `genericException` is the
bare `Exception` class; the remaining constructors are the typed errors of
the error taxonomy. The `identificationError` and `duplicateResultError`
constructors are included only so that statements can compare against them:
the code under `src/` raises the bare `Exception` class in both situations
(utils.py lines 153 and 362). -/
inductive PyError where
  | genericException : String → PyError
  | typeError : String → PyError
  | keyError : String → PyError
  | fileNotFound : FPath → PyError
  | importFailure : String → PyError
  | jsonDecodeError : PyError
  | unsupportedSchemeError : String → PyError
  | identificationError : String → PyError
  | duplicateResultError : String → PyError
deriving DecidableEq

/-- True exactly on the `identificationError` constructor. -/
def PyError.isIdentificationError : PyError → Bool
  | .identificationError _ => true
  | _ => false

/-- True exactly on the `duplicateResultError` constructor. -/
def PyError.isDuplicateResultError : PyError → Bool
  | .duplicateResultError _ => true
  | _ => false

/-- The descriptor assembled by `prepare_run_test_offline` (`test_info` in
the source): the five fields written to `test_config.json`. -/
structure TestInfo where
  test_id : String
  test_instance_id : String
  test_instance_path : String
  test_observation_file : String
  params : List (String × JVal)

/-- The JSON object `prepare_run_test_offline` serialises to
`test_config.json`, with its keys in the insertion order of the source. -/
def testInfoJson (t : TestInfo) : JVal :=
  .jobj [("test_id", .jstr t.test_id),
         ("test_instance_id", .jstr t.test_instance_id),
         ("test_instance_path", .jstr t.test_instance_path),
         ("test_observation_file", .jstr t.test_observation_file),
         ("params", .jobj t.params)]

/-- Projection of the five descriptor fields from the JSON object
`run_test_offline` obtains from `json.load` on the config file; `none`
models a `KeyError` or an ill-typed field. -/
def readTestInfo (v : JVal) : Option TestInfo :=
  match v.getField "test_id", v.getField "test_instance_id",
        v.getField "test_instance_path", v.getField "test_observation_file",
        v.getField "params" with
  | some (.jstr a), some (.jstr b), some (.jstr c), some (.jstr d), some (.jobj p) =>
      some ⟨a, b, c, d, p⟩
  | _, _, _, _, _ => none

/-- The de-duplication projection serialised by `upload_test_result` (the
dictionary `result_json` of the source): the five fields
model instance id, test instance id, score value, runtime and execution
timestamp, with the keys listed here in the sorted order that
`json.dumps(..., sort_keys=True)` produces and with `default=str` applied:
the timestamp is string-coerced, and a non-serialisable score value is
replaced by its `str()` rendering. -/
def resultJsonOf (model_instance_id : String) (sc : ScoreRec) : JVal :=
  .jobj [("exectime", .jstr (timestampStr sc.exec_timestamp)),
         ("model_instance_id", .jstr model_instance_id),
         ("runtime", .jstr sc.runtime),
         ("score", pyvalToJson sc.score),
         ("test_code_id", .jstr sc.test_uuid)]

/-- The string-coerced de-duplication projection itself: the tuple of the
five projected fields after the `default=str` coercion (timestamp
string-coerced, score value as serialised). -/
def scoreProj (model_instance_id : String) (sc : ScoreRec) :
    String × String × JVal × String × String :=
  (model_instance_id, sc.test_uuid, pyvalToJson sc.score, sc.runtime,
   timestampStr sc.exec_timestamp)

/-- The hash `upload_test_result` computes at line 357 of the source:
`str(hash(json.dumps(result_json, sort_keys=True, default=str)))`, as a
function of the process hash seed, the model instance id and the score
record. -/
def scoreHash (seed : Nat) (model_instance_id : String) (sc : ScoreRec) : String :=
  toString (pyHashStr seed (pyJsonDumps (resultJsonOf model_instance_id sc)))

/-- The message of the duplicate-result refusal, naming the conflicting
result identifiers as the source formats them. -/
def dupMessage (ids : List String) : String :=
  "An identical result has already been registered on the validation framework.\nExisting Result UUID = "
    ++ String.intercalate ", " ids

/-- Update of the `related_data` mapping by `related_data[key] = value`:
replace the binding if the key is present, else append it. -/
def setField (l : List (String × JVal)) (key : String) (v : JVal) :
    List (String × JVal) :=
  match l with
  | [] => [(key, v)]
  | (k, w) :: rest => if k = key then (k, v) :: rest else (k, w) :: setField rest key v

/-- The response of `get_test_instance`: the fields of the test instance
record the code reads. -/
structure TestInstanceRec where
  id : String
  test_definition_id : String
  path : String

/-- Modelled from the spec: the environment of one `prepare_run_test_offline`
call. The remote catalog client, the datastore dispatch table
`URI_SCHEME_MAP` and the datastore download live in modules of this
repository that are not under `src/` (`__init__.py`, `datastores.py`), so
their behaviour is taken from the spec: client construction authenticates
(passing an existing client via `client_obj` reuses its token, §5); the
dispatch table maps each supported URI scheme to a datastore and an
unsupported scheme fails with `UnsupportedSchemeError` (§4.1); the datastore
of the scheme creates the timestamped local directory and writes the
observation file into it, returning its path (§4.1). The catalog responses
and the clock reading are the remaining fields. -/
structure PrepWorld where
  testInstance : TestInstanceRec
  dataLocation : String
  supportedSchemes : List String
  obsContent : FileContent
  downloadName : String
  cwd : FPath
  nowDir : String

/-- Embedding of `prepare_run_test_offline` (utils.py lines 91-180): build
the client (authenticating unless `client_obj` is passed), fail when none of
the three test identifiers is supplied, resolve the test instance and its
definition, dispatch on the URI scheme of the observation location, download
the observation into the timestamped base folder, assemble `test_info` and
write it to `test_config.json`, returning that path. -/
def prepare_run_test_offline (test_instance_id test_id test_alias test_version : String)
    (client_obj : Bool) (params : List (String × JVal)) (w : PrepWorld) (fs : Fs) :
    Except PyError FPath × Fs × List Event :=
  let ev0 : List Event := if client_obj then [] else [.auth]
  if test_instance_id = "" ∧ test_id = "" ∧ test_alias = "" then
    (.error (.genericException "test_instance_id or test_id or test_alias needs to be provided for finding test."),
     fs, ev0)
  else
    let ev1 := ev0 ++ [.getTestInstance test_instance_id test_id test_alias test_version]
    let tid := w.testInstance.test_definition_id
    let instId := w.testInstance.id
    let instPath := w.testInstance.path
    let ev2 := ev1 ++ [.getTestDefinition tid]
    let scheme := uriScheme w.dataLocation
    if scheme ∈ w.supportedSchemes then
      let base := w.cwd ++ ["hbp_validation_framework", tid, w.nowDir]
      let obsFile := base ++ [w.downloadName]
      let fs1 := fsSet fs obsFile w.obsContent
      let info : TestInfo :=
        ⟨tid, instId, instPath, pathBasename obsFile, params⟩
      let cfg := base ++ ["test_config.json"]
      let fs2 := fsSet fs1 cfg (.json (testInfoJson info))
      (.ok cfg, fs2, ev2 ++ [.download base w.downloadName, .writeFile cfg])
    else
      (.error (.unsupportedSchemeError scheme), fs, ev2)

/-- The data the test execution produces: the score value and the
`related_data` mapping of the resulting score object. -/
structure JudgeOut where
  score : PyVal
  related_data : List (String × JVal)

/-- Modelled from the spec: the environment of one `run_test_offline` call.
The dynamic import and the test execution call into code outside `src/`
(importlib, sciunit and the test implementation): whether the import
resolves, the outcome of `test.judge` (§4.3: errors raised by the test
execution propagate with full detail), the two `datetime.utcnow()` readings
in microseconds, and the `datetime.now` stamp used in the result file
name. -/
structure RunWorld where
  importOk : Bool
  judgeOutcome : Except PyError JudgeOut
  tStart : Nat
  tEnd : Nat
  nowStamp : String

/-- Ceiling of a microsecond count to whole seconds:
`int(math.ceil(delta.total_seconds()))` with `total_seconds` taken exactly. -/
def ceilSecs (micros : Nat) : Nat := (micros + 999999) / 1000000

/-- The text of a file as `open(...).read()` returns it; a pickle file read
as text fails to decode. -/
def fileText : FileContent → Option String
  | .json v => some (pyJsonDumps v)
  | .raw s => some s
  | .pickle _ => none

/-- `json.loads` on a file content: a JSON file yields its value, anything
else raises `JSONDecodeError` in this model (raw files stand for non-JSON
text). -/
def jsonLoadContent : FileContent → Option JVal
  | .json v => some v
  | _ => none

/-- `mimetypes.guess_type(name)[0] == "application/json"`: the standard
table maps the `.json` extension to that type. -/
def guessIsJson (name : String) : Bool := ".json".data.isSuffixOf name.data

/-- Split a character list on a separator character, as
`"a.b.c".split(".")` does. -/
def splitOnCharAux (c : Char) : List Char → List (List Char)
  | [] => [[]]
  | x :: xs =>
    match splitOnCharAux c xs with
    | [] => [[]]
    | g :: gs => if x = c then [] :: g :: gs else (x :: g) :: gs

/-- The module locator of a dotted instance path: the parts before the last
dot, re-joined with dots (`".".join(path_parts[:-1])` after
`path.split(".")`). -/
def moduleNameOf (instPath : String) : String :=
  String.intercalate "."
    (((splitOnCharAux '.' instPath.data).map (fun l => String.mk l)).dropLast)

/-- The observation value handed to the test constructor: parsed JSON when
the content type is JSON, raw text otherwise. -/
inductive ObsData where
  | parsed : JVal → ObsData
  | rawText : String → ObsData

/-- Embedding of `run_test_offline` (utils.py lines 182-274): check the
config path is a file, load and project the descriptor, resolve the test
class dynamically, read the observation file from the directory of the
descriptor, check the model is a `sciunit.Model`, run `test.judge`, write
runtime and execution timestamp onto the score, and pickle it under
`results/` in the same base folder, returning that path. -/
def run_test_offline (model : ModelHandle) (test_config_file : FPath)
    (w : RunWorld) (fs : Fs) : Except PyError FPath × Fs × List Event :=
  let ev1 : List Event := [.isfile test_config_file]
  match fsGet fs test_config_file with
  | none =>
    (.error (.genericException "\x27test_config_file\x27 should direct to file describing the test configuration."),
     fs, ev1)
  | some content =>
    let base := pathDirname test_config_file
    match jsonLoadContent content with
    | none => (.error .jsonDecodeError, fs, ev1 ++ [.readFile test_config_file])
    | some cfgJson =>
      let ev2 := ev1 ++ [.readFile test_config_file]
      match cfgJson.getField "test_instance_path" with
      | none => (.error (.keyError "test_instance_path"), fs, ev2)
      | some (.jstr instPath) =>
        let moduleName := moduleNameOf instPath
        let ev3 := ev2 ++ [.importModule moduleName]
        if w.importOk then
          match cfgJson.getField "test_observation_file" with
          | some (.jstr obsName) =>
            let obsPath := base ++ [obsName]
            match fsGet fs obsPath with
            | none => (.error (.fileNotFound obsPath), fs, ev3 ++ [.readFile obsPath])
            | some obsContent =>
              let ev4 := ev3 ++ [.readFile obsPath]
              match fileText obsContent with
              | none => (.error (.genericException "UnicodeDecodeError"), fs, ev4)
              | some obsText =>
                let obsLoaded : Except PyError ObsData :=
                  if guessIsJson obsName then
                    match jsonLoadContent obsContent with
                    | some v => .ok (.parsed v)
                    | none => .error .jsonDecodeError
                  else .ok (.rawText obsText)
                match obsLoaded with
                | .error e => (.error e, fs, ev4)
                | .ok _ =>
                  match cfgJson.getField "params", cfgJson.getField "test_instance_id" with
                  | some (.jobj _), some (.jstr instUuid) =>
                    if model.isSciunitModel then
                      let ev5 := ev4 ++ [.judge]
                      match w.judgeOutcome with
                      | .error e => (.error e, fs, ev5)
                      | .ok out =>
                        let sc : ScoreRec :=
                          ⟨out.score, out.related_data, model, instUuid,
                           toString (ceilSecs (w.tEnd - w.tStart)) ++ " s",
                           w.tEnd, none⟩
                        let resultsDir := base ++ ["results"]
                        let resPath := base ++
                          ["results", "result__" ++ model.name ++ "__" ++ w.nowStamp ++ ".pkl"]
                        let fs1 := fsSet fs resPath (.pickle sc)
                        (.ok resPath, fs1, ev5 ++ [.mkdir resultsDir, .pickleDump resPath])
                    else
                      (.error (.typeError "`model` is not a sciunit Model!"), fs, ev4)
                  | none, _ => (.error (.keyError "params"), fs, ev4)
                  | some _, none => (.error (.keyError "test_instance_id"), fs, ev4)
                  | _, _ => (.error (.typeError "test_info field of unexpected shape"), fs, ev4)
          | some _ => (.error (.typeError "test_info field of unexpected shape"), fs, ev3)
          | none => (.error (.keyError "test_observation_file"), fs, ev3)
        else
          (.error (.importFailure moduleName), fs, ev3)
      | some _ => (.error (.typeError "test_info field of unexpected shape"), fs, ev2)

/-- A result record returned by `list_results`: the fields the dedup check
reads. -/
structure StoredResult where
  id : String
  hash : String

/-- Modelled from the spec: the environment of one `upload_test_result`
call. The catalog client classes live outside `src/`: construction
authenticates unless an existing client is reused (§5);
`find_model_instance_else_add`, `get_model_instance`, `get_model`,
`list_results` and `register_result` are catalog operations whose responses
are the fields below (§4.4, §6). `seed` is the hash salt of the calling
process (PYTHONHASHSEED). -/
structure UploadWorld where
  modelInstanceUuid : String
  modelId : String
  modelCollabId : String
  modelName : String
  storedResults : List StoredResult
  seed : Nat
  registerResponse : String

/-- Embedding of `upload_test_result` (utils.py lines 276-370): return
`(None, None)` at once when `register_result` is false; check the result
path is a file and unpickle the score; build the client; resolve the model
instance, its model and the storage collab; set
`related_data["project"]`; compute the de-duplication hash; list existing
results for the (model instance, test instance) pair and, when a stored
hash equals the fresh one, refuse by raising the bare `Exception` class
(line 362) whose message names the duplicates; otherwise register the
result and return the new identifier with the score. -/
def upload_test_result (test_result_file : FPath) (storage_collab_id : String)
    (register_result : Bool) (client_obj : Bool) (w : UploadWorld) (fs : Fs) :
    Except PyError (Option String × Option ScoreRec) × Fs × List Event :=
  if register_result then
    match fsGet fs test_result_file with
    | none =>
      (.error (.genericException "\x27test_result_file\x27 should direct to file containg the test result data."),
       fs, [.isfile test_result_file])
    | some c =>
      match c with
      | .pickle score =>
        let ev1 : List Event :=
          [.isfile test_result_file, .pickleLoad test_result_file]
            ++ (if client_obj then [] else [.auth])
        let muuid := w.modelInstanceUuid
        let ev2 := ev1 ++ [.findModelInstance, .getModelInstance muuid, .getModel w.modelId]
        let storage := if storage_collab_id = "" then w.modelCollabId else storage_collab_id
        let score1 : ScoreRec :=
          { score with related_data := setField score.related_data "project" (.jstr storage) }
        let hashStr := scoreHash w.seed muuid score
        let score2 : ScoreRec := { score1 with score_hash := some hashStr }
        let ev3 := ev2 ++ [.listResults muuid score.test_uuid]
        let dups := (w.storedResults.filter (fun r => r.hash = hashStr)).map (fun r => r.id)
        if dups.isEmpty then
          (.ok (some w.registerResponse, some score2), fs, ev3 ++ [.registerResult])
        else
          (.error (.genericException (dupMessage dups)), fs, ev3)
      | _ =>
        (.error (.genericException "UnpicklingError"), fs,
         [.isfile test_result_file, .pickleLoad test_result_file])
  else
    (.ok (none, none), fs, [])

/-- The combined environment of one `run_test` call. -/
structure RunTestWorld where
  prep : PrepWorld
  runw : RunWorld
  up : UploadWorld

/-- Embedding of `run_test` (utils.py lines 372-434): call
`prepare_run_test_offline`, hand its config path to `run_test_offline`, hand
the result path to `upload_test_result`, and return the
(result id, score) pair; an exception from any step propagates and ends the
chain. -/
def run_test (model : ModelHandle)
    (test_instance_id test_id test_alias test_version storage_collab_id : String)
    (register_result : Bool) (client_obj : Bool) (params : List (String × JVal))
    (w : RunTestWorld) (fs : Fs) :
    Except PyError (Option String × Option ScoreRec) × Fs × List Event :=
  match prepare_run_test_offline test_instance_id test_id test_alias test_version
      client_obj params w.prep fs with
  | (.error e, fs1, t1) => (.error e, fs1, t1)
  | (.ok cfg, fs1, t1) =>
    match run_test_offline model cfg w.runw fs1 with
    | (.error e, fs2, t2) => (.error e, fs2, t1 ++ t2)
    | (.ok resFile, fs2, t2) =>
      match upload_test_result resFile storage_collab_id register_result
          client_obj w.up fs2 with
      | (.error e, fs3, t3) => (.error e, fs3, t1 ++ t2 ++ t3)
      | (.ok out, fs3, t3) => (.ok out, fs3, t1 ++ t2 ++ t3)

/-- The hash of line 357 depends on the score record only through the
string-coerced de-duplication projection: within one process (one seed),
records with equal projections hash identically. -/
theorem scoreHash_congr (seed : Nat) (mid1 mid2 : String) (sc1 sc2 : ScoreRec)
    (h : scoreProj mid1 sc1 = scoreProj mid2 sc2) :
    scoreHash seed mid1 sc1 = scoreHash seed mid2 sc2 := by
  unfold scoreProj at h
  simp only [Prod.mk.injEq] at h
  obtain ⟨h1, h2, h3, h4, h5⟩ := h
  unfold scoreHash resultJsonOf
  rw [h1, h2, h3, h4, h5]

/-- C3: the TestDescriptor round-trips exactly: serialising the five
descriptor fields to the JSON object `prepare_run_test_offline` writes to
`test_config.json` and projecting them back out of the object
`run_test_offline` obtains from `json.load` yields field-for-field equality
on {test_id, test_instance_id, test_instance_path, test_observation_file,
params}. -/
theorem testInfo_roundtrip (t : TestInfo) :
    readTestInfo (testInfoJson t) = some t := rfl

/-- C9: with `register_result = False`, `upload_test_result` returns
`(None, None)` at once: the filesystem is untouched and the trace is empty
(no existence check, no read, no client construction, no catalog call). -/
theorem upload_register_false_noop (file : FPath) (storage : String)
    (client : Bool) (w : UploadWorld) (fs : Fs) :
    upload_test_result file storage false client w fs = (.ok (none, none), fs, []) := rfl

/-- C5 (amended): when none of test_instance_id, test_id and test_alias is
supplied, `prepare_run_test_offline` raises the bare `Exception` class with
a message naming the three missing parameters, after constructing the
catalog client (authenticating when no existing client is passed) but
before issuing any catalog query, download or file write: the trace holds
the construction alone and the filesystem is unchanged. -/
theorem prepare_missing_ids_generic_exception (tv : String) (cl : Bool)
    (ps : List (String × JVal)) (w : PrepWorld) (fs : Fs) :
    prepare_run_test_offline "" "" "" tv cl ps w fs =
      (.error (.genericException "test_instance_id or test_id or test_alias needs to be provided for finding test."),
       fs, if cl then [] else [Event.auth]) := by
  unfold prepare_run_test_offline
  simp

/-- A concrete environment for the missing-identifier call. -/
def cxPrepWorld5 : PrepWorld :=
  ⟨⟨"inst-1", "test-1", "mymod.MyTest"⟩, "https://example.org/obs.json",
   ["http", "https", "collab", "swift"], .raw "obs", "obs.json",
   ["home"], "20200101-120000"⟩

/-- C5 (counterexample): at the concrete call with all three identifiers
empty, the error raised is not an `IdentificationError` (it is the bare
`Exception` class), and the client has already been constructed
(authenticated) when the failure occurs — the trace is `[auth]`. -/
theorem prepare_missing_ids_not_identification_error :
    (match (prepare_run_test_offline "" "" "" "" false [] cxPrepWorld5 []).1 with
     | .error e => e.isIdentificationError
     | .ok _ => true) = false
    ∧ (prepare_run_test_offline "" "" "" "" false [] cxPrepWorld5 []).2.2 = [Event.auth] :=
  ⟨rfl, rfl⟩

/-- The score record of a fixed, concrete result: the de-duplication
projection {model instance id, test instance id, score value, runtime,
execution timestamp} is held fixed across the two processes compared
below. -/
def cxScore1 : ScoreRec :=
  ⟨.jsonVal (.jstr "0.5"), [], ⟨"model-A", true⟩, "test-uuid-1", "1 s", 1600000000, none⟩

set_option maxRecDepth 100000 in
/-- C1 (failing input): the score hash of line 357 is
`str(hash(json.dumps(...)))`, and the built-in string hash is salted per
process; evaluating the embedded computation on one fixed record under two
process seeds yields two different `score_hash` strings, although the five
projected fields are identical. -/
theorem score_hash_differs_between_processes :
    scoreHash 0 "model-inst-1" cxScore1 ≠ scoreHash 1 "model-inst-1" cxScore1 := by
  decide

/-- The basename of a path built by appending a non-empty suffix is the
basename of the suffix. -/
theorem pathBasename_append (p l : FPath) (h : l ≠ []) :
    pathBasename (p ++ l) = pathBasename l := by
  unfold pathBasename
  rw [List.getLastD_eq_getLast?, List.getLastD_eq_getLast?, List.getLast?_append,
    Option.or_of_isSome (List.getLast?_isSome.mpr h)]

/-- C6: when the scheme of the test observation URI is outside the
dispatch table, `prepare_run_test_offline` fails with
`UnsupportedSchemeError` and the failure precedes any local write: the
returned filesystem equals the input one and the trace holds no download
and no file write, only the client construction and the two catalog
lookups. -/
theorem prepare_unsupported_scheme (tiid tid talias tver : String) (cl : Bool)
    (ps : List (String × JVal)) (w : PrepWorld) (fs : Fs)
    (hids : ¬(tiid = "" ∧ tid = "" ∧ talias = ""))
    (hscheme : uriScheme w.dataLocation ∉ w.supportedSchemes) :
    prepare_run_test_offline tiid tid talias tver cl ps w fs =
      (.error (.unsupportedSchemeError (uriScheme w.dataLocation)), fs,
       (if cl then [] else [Event.auth]) ++
         [.getTestInstance tiid tid talias tver,
          .getTestDefinition w.testInstance.test_definition_id]) := by
  unfold prepare_run_test_offline
  rw [if_neg hids]
  simp [hscheme]

/-- A concrete environment whose observation data location has the
unsupported scheme `ftp`. -/
def cxPrepWorld6 : PrepWorld :=
  ⟨⟨"inst-1", "test-1", "mymod.MyTest"⟩, "ftp://example.org/obs.json",
   ["http", "https", "collab", "swift"], .raw "obs", "obs.json",
   ["home"], "20200101-120000"⟩

set_option maxRecDepth 100000 in
/-- Witness for C6: the concrete `ftp://` observation location fails with
`UnsupportedSchemeError` for scheme `ftp`, with untouched filesystem and no
write event. -/
theorem prepare_unsupported_scheme_witness :
    prepare_run_test_offline "" "test-1" "" "1.0" false [] cxPrepWorld6 [] =
      (.error (.unsupportedSchemeError "ftp"), [],
       [Event.auth, .getTestInstance "" "test-1" "" "1.0", .getTestDefinition "test-1"]) := by
  have h := prepare_unsupported_scheme "" "test-1" "" "1.0" false [] cxPrepWorld6 []
    (by decide) (by decide)
  simpa using h

/-- C10: a successful `prepare_run_test_offline` writes the observation
file and `test_config.json` into the same timestamped base folder, and the
descriptor's `test_observation_file` field is exactly the basename of the
downloaded observation file: the full evaluation below exhibits the two
writes, and the last two conjuncts state the co-location invariant. -/
theorem prepare_colocates_config_and_observation
    (tiid tid talias tver : String) (cl : Bool) (ps : List (String × JVal))
    (w : PrepWorld) (fs : Fs)
    (hids : ¬(tiid = "" ∧ tid = "" ∧ talias = ""))
    (hscheme : uriScheme w.dataLocation ∈ w.supportedSchemes) :
    prepare_run_test_offline tiid tid talias tver cl ps w fs =
      (.ok (w.cwd ++ ["hbp_validation_framework", w.testInstance.test_definition_id, w.nowDir, "test_config.json"]),
       fsSet (fsSet fs
           (w.cwd ++ ["hbp_validation_framework", w.testInstance.test_definition_id, w.nowDir, w.downloadName])
           w.obsContent)
         (w.cwd ++ ["hbp_validation_framework", w.testInstance.test_definition_id, w.nowDir, "test_config.json"])
         (.json (testInfoJson
           ⟨w.testInstance.test_definition_id, w.testInstance.id, w.testInstance.path, w.downloadName, ps⟩)),
       (if cl then [] else [Event.auth]) ++
         [.getTestInstance tiid tid talias tver,
          .getTestDefinition w.testInstance.test_definition_id,
          .download (w.cwd ++ ["hbp_validation_framework", w.testInstance.test_definition_id, w.nowDir]) w.downloadName,
          .writeFile (w.cwd ++ ["hbp_validation_framework", w.testInstance.test_definition_id, w.nowDir, "test_config.json"])])
    ∧ pathDirname (w.cwd ++ ["hbp_validation_framework", w.testInstance.test_definition_id, w.nowDir, "test_config.json"])
        = pathDirname (w.cwd ++ ["hbp_validation_framework", w.testInstance.test_definition_id, w.nowDir, w.downloadName])
    ∧ w.downloadName
        = pathBasename (w.cwd ++ ["hbp_validation_framework", w.testInstance.test_definition_id, w.nowDir, w.downloadName]) := by
  have hb : pathBasename
      (w.cwd ++ ["hbp_validation_framework", w.testInstance.test_definition_id, w.nowDir, w.downloadName])
      = w.downloadName := by
    rw [pathBasename_append _ _ (by simp)]
    rfl
  refine ⟨?_, ?_, hb.symm⟩
  · unfold prepare_run_test_offline
    rw [if_neg hids]
    simp only [hscheme, if_true, ite_true, List.append_assoc, List.cons_append,
      List.nil_append, fsSet]
    simp [hscheme, hb]
  · unfold pathDirname
    simp

/-- A concrete environment for a successful preparation. -/
def cxPrepWorld10 : PrepWorld :=
  ⟨⟨"inst-1", "test-1", "mymod.MyTest"⟩, "https://example.org/obs.txt",
   ["http", "https", "collab", "swift"], .raw "obs", "obs.txt",
   ["home"], "20200101-120000"⟩

set_option maxRecDepth 100000 in
/-- Witness for C10: on the concrete successful preparation, the config
path and the observation path share their directory, and the descriptor
records the basename of the observation file. -/
theorem prepare_colocates_witness :
    (prepare_run_test_offline "" "test-1" "" "1.0" false [] cxPrepWorld10 []).1 =
      .ok ["home", "hbp_validation_framework", "test-1", "20200101-120000", "test_config.json"]
    ∧ pathDirname ["home", "hbp_validation_framework", "test-1", "20200101-120000", "test_config.json"]
        = pathDirname ["home", "hbp_validation_framework", "test-1", "20200101-120000", "obs.txt"]
    ∧ "obs.txt" = pathBasename ["home", "hbp_validation_framework", "test-1", "20200101-120000", "obs.txt"] := by
  have h := prepare_colocates_config_and_observation "" "test-1" "" "1.0" false []
    cxPrepWorld10 [] (by decide) (by decide)
  exact ⟨congrArg Prod.fst h.1, h.2.1, h.2.2⟩

/-- C7: on a successful execution, `run_test_offline` writes onto the
pickled score a `runtime` equal to the elapsed wall-clock microseconds
rounded up to whole seconds and formatted as the decimal integer followed
by " s", and an `exec_timestamp` equal to the completion time `t_end`; the
last two conjuncts state that `ceilSecs` is exactly the ceiling: the
elapsed time fits in that many seconds and in no fewer. -/
theorem run_offline_runtime_ceiling
    (model : ModelHandle) (cfg : FPath) (w : RunWorld) (fs : Fs)
    (t : TestInfo) (obsTxt : String) (out : JudgeOut)
    (hcfg : fsGet fs cfg = some (.json (testInfoJson t)))
    (hobs : fsGet fs (pathDirname cfg ++ [t.test_observation_file]) = some (.raw obsTxt))
    (hname : guessIsJson t.test_observation_file = false)
    (himp : w.importOk = true)
    (hmodel : model.isSciunitModel = true)
    (hjudge : w.judgeOutcome = .ok out) :
    run_test_offline model cfg w fs =
      (.ok (pathDirname cfg ++ ["results", "result__" ++ model.name ++ "__" ++ w.nowStamp ++ ".pkl"]),
       fsSet fs (pathDirname cfg ++ ["results", "result__" ++ model.name ++ "__" ++ w.nowStamp ++ ".pkl"])
         (.pickle ⟨out.score, out.related_data, model, t.test_instance_id,
                   toString (ceilSecs (w.tEnd - w.tStart)) ++ " s", w.tEnd, none⟩),
       [.isfile cfg, .readFile cfg, .importModule (moduleNameOf t.test_instance_path),
        .readFile (pathDirname cfg ++ [t.test_observation_file]), .judge,
        .mkdir (pathDirname cfg ++ ["results"]),
        .pickleDump (pathDirname cfg ++ ["results", "result__" ++ model.name ++ "__" ++ w.nowStamp ++ ".pkl"])])
    ∧ (w.tEnd - w.tStart) ≤ ceilSecs (w.tEnd - w.tStart) * 1000000
    ∧ (∀ m : Nat, (w.tEnd - w.tStart) ≤ m * 1000000 → ceilSecs (w.tEnd - w.tStart) ≤ m) := by
  refine ⟨?_, ?_, ?_⟩
  · unfold run_test_offline
    rw [hcfg]
    simp [jsonLoadContent, testInfoJson, JVal.getField, lookupField, himp, hobs,
      hname, hmodel, hjudge, fileText]
  · unfold ceilSecs
    omega
  · intro m hm
    unfold ceilSecs
    omega

/-- The descriptor of the concrete successful run. -/
def cxTestInfo7 : TestInfo := ⟨"test-1", "inst-1", "mymod.MyTest", "obs.txt", []⟩

/-- The environment of the concrete successful run: the test execution
starts at microsecond 1000000, ends at 3500001 (elapsed 2500001
microseconds, whose ceiling is 3 seconds). -/
def cxRunWorld7 : RunWorld := ⟨true, .ok ⟨.jsonVal (.jstr "0.9"), []⟩, 1000000, 3500001, "20200101120000"⟩

/-- A filesystem holding the descriptor and its observation file. -/
def cxFs7 : Fs :=
  [(["base", "test_config.json"], .json (testInfoJson cxTestInfo7)),
   (["base", "obs.txt"], .raw "obs-data")]

set_option maxRecDepth 100000 in
/-- Witness for C7: on the concrete run the pickled score carries
`runtime = "3 s"` (ceiling of 2.500001 s) and `exec_timestamp` equal to the
completion time. -/
theorem run_offline_runtime_ceiling_witness :
    (run_test_offline ⟨"hippoCircuit", true⟩ ["base", "test_config.json"] cxRunWorld7 cxFs7).1 =
      .ok ["base", "results", "result__hippoCircuit__20200101120000.pkl"]
    ∧ fsGet (run_test_offline ⟨"hippoCircuit", true⟩ ["base", "test_config.json"] cxRunWorld7 cxFs7).2.1
        ["base", "results", "result__hippoCircuit__20200101120000.pkl"] =
      some (.pickle ⟨.jsonVal (.jstr "0.9"), [], ⟨"hippoCircuit", true⟩, "inst-1", "3 s", 3500001, none⟩) := by
  have h := (run_offline_runtime_ceiling ⟨"hippoCircuit", true⟩ ["base", "test_config.json"]
    cxRunWorld7 cxFs7 cxTestInfo7 "obs-data" ⟨.jsonVal (.jstr "0.9"), []⟩ rfl rfl rfl rfl rfl rfl).1
  exact ⟨congrArg Prod.fst h,
    congrArg (fun r => fsGet r.2.1 ["base", "results", "result__hippoCircuit__20200101120000.pkl"]) h⟩

/-- C8: when the supplied model is not a `sciunit.Model`, `run_test_offline`
never reaches the test execution (`judge` is absent from the trace of every
run, whatever the environment), and under an otherwise well-formed
environment it fails with exactly the `TypeError` of line 246. -/
theorem run_offline_model_type_guard
    (model : ModelHandle) (cfg : FPath) (w : RunWorld) (fs : Fs)
    (hmodel : model.isSciunitModel = false) :
    Event.judge ∉ (run_test_offline model cfg w fs).2.2
    ∧ (∀ (t : TestInfo) (obsTxt : String),
        fsGet fs cfg = some (.json (testInfoJson t)) →
        fsGet fs (pathDirname cfg ++ [t.test_observation_file]) = some (.raw obsTxt) →
        guessIsJson t.test_observation_file = false →
        w.importOk = true →
        (run_test_offline model cfg w fs).1 = .error (.typeError "`model` is not a sciunit Model!")) := by
  constructor
  · unfold run_test_offline
    simp only [hmodel, Bool.false_eq_true, if_false, ite_false]
    repeat' split
    all_goals simp_all
  · intro t obsTxt hcfg hobs hname himp
    unfold run_test_offline
    rw [hcfg]
    simp [jsonLoadContent, testInfoJson, JVal.getField, lookupField, himp, hobs,
      hname, hmodel, fileText]

set_option maxRecDepth 100000 in
/-- Witness for C8: a concrete non-`sciunit.Model` object fails with the
`TypeError` and the trace of that run holds no `judge` event. -/
theorem run_offline_model_type_guard_witness :
    (run_test_offline ⟨"notAModel", false⟩ ["base", "test_config.json"] cxRunWorld7 cxFs7).1 =
      .error (.typeError "`model` is not a sciunit Model!")
    ∧ Event.judge ∉ (run_test_offline ⟨"notAModel", false⟩ ["base", "test_config.json"] cxRunWorld7 cxFs7).2.2 := by
  have h := run_offline_model_type_guard ⟨"notAModel", false⟩ ["base", "test_config.json"]
    cxRunWorld7 cxFs7 rfl
  exact ⟨h.2 cxTestInfo7 "obs-data" rfl rfl rfl rfl, h.1⟩

/-- C2 (amended): persisted-score de-duplication. With the score unpickled
from the result file: (1) when no stored result for the (model instance,
test instance) pair has a hash equal to the freshly computed one, the
result is registered and returned with the hash written onto the score —
upload is allowed exactly when the fresh hash differs from every stored
one; (2) when some stored hash equals it, the upload is refused by raising
the bare `Exception` class (line 362) whose message names the conflicting
result identifiers, and no `register_result` call happens; (3) re-submitting
in the same process against a catalog which now stores the previously
computed hash is refused the same way, with the re-submitted result named
among the conflicts (same hash seed, hence same hash); (4) records with
equal string-coerced projections hash identically within a process — in
particular a score change that the `default=str` coercion collapses leaves
the hash unchanged; (5) the canonical projection object determines and is
determined by the five string-coerced fields. -/
theorem upload_dedup_behaviour
    (file : FPath) (storage : String) (cl : Bool) (w : UploadWorld) (fs : Fs) (sc : ScoreRec)
    (hfile : fsGet fs file = some (.pickle sc)) :
    (((w.storedResults.filter (fun r => r.hash = scoreHash w.seed w.modelInstanceUuid sc)).map (fun r => r.id)) = [] →
      (upload_test_result file storage true cl w fs).1 =
        .ok (some w.registerResponse,
             some { sc with
                    related_data := setField sc.related_data "project"
                      (.jstr (if storage = "" then w.modelCollabId else storage)),
                    score_hash := some (scoreHash w.seed w.modelInstanceUuid sc) })
      ∧ Event.registerResult ∈ (upload_test_result file storage true cl w fs).2.2)
    ∧ (((w.storedResults.filter (fun r => r.hash = scoreHash w.seed w.modelInstanceUuid sc)).map (fun r => r.id)) ≠ [] →
      (upload_test_result file storage true cl w fs).1 =
        .error (.genericException (dupMessage
          ((w.storedResults.filter (fun r => r.hash = scoreHash w.seed w.modelInstanceUuid sc)).map (fun r => r.id))))
      ∧ Event.registerResult ∉ (upload_test_result file storage true cl w fs).2.2)
    ∧ (∀ rid : String,
        (∃ ids : List String,
          (upload_test_result file storage true cl
            { w with storedResults :=
                w.storedResults ++ [⟨rid, scoreHash w.seed w.modelInstanceUuid sc⟩] } fs).1 =
            .error (.genericException (dupMessage ids))
          ∧ rid ∈ ids)
        ∧ Event.registerResult ∉ (upload_test_result file storage true cl
            { w with storedResults :=
                w.storedResults ++ [⟨rid, scoreHash w.seed w.modelInstanceUuid sc⟩] } fs).2.2)
    ∧ (∀ (seed : Nat) (mid1 mid2 : String) (sc1 sc2 : ScoreRec),
        scoreProj mid1 sc1 = scoreProj mid2 sc2 →
        scoreHash seed mid1 sc1 = scoreHash seed mid2 sc2)
    ∧ (∀ (mid1 mid2 : String) (sc1 sc2 : ScoreRec),
        resultJsonOf mid1 sc1 = resultJsonOf mid2 sc2 ↔ scoreProj mid1 sc1 = scoreProj mid2 sc2) := by
  have main : ∀ (w' : UploadWorld),
      (((w'.storedResults.filter (fun r => r.hash = scoreHash w'.seed w'.modelInstanceUuid sc)).map (fun r => r.id)) = [] →
        (upload_test_result file storage true cl w' fs).1 =
          .ok (some w'.registerResponse,
               some { sc with
                      related_data := setField sc.related_data "project"
                        (.jstr (if storage = "" then w'.modelCollabId else storage)),
                      score_hash := some (scoreHash w'.seed w'.modelInstanceUuid sc) })
        ∧ Event.registerResult ∈ (upload_test_result file storage true cl w' fs).2.2)
      ∧ (((w'.storedResults.filter (fun r => r.hash = scoreHash w'.seed w'.modelInstanceUuid sc)).map (fun r => r.id)) ≠ [] →
        (upload_test_result file storage true cl w' fs).1 =
          .error (.genericException (dupMessage
            ((w'.storedResults.filter (fun r => r.hash = scoreHash w'.seed w'.modelInstanceUuid sc)).map (fun r => r.id))))
        ∧ Event.registerResult ∉ (upload_test_result file storage true cl w' fs).2.2) := by
    intro w'
    constructor
    · intro hd
      unfold upload_test_result
      rw [hfile]
      simp [hd, List.isEmpty_iff]
    · intro hd
      unfold upload_test_result
      rw [hfile]
      simp [hd, List.isEmpty_iff]
  refine ⟨(main w).1, (main w).2, ?_, ?_, ?_⟩
  · intro rid
    have hd : (({ w with storedResults :=
          w.storedResults ++ [⟨rid, scoreHash w.seed w.modelInstanceUuid sc⟩] : UploadWorld}.storedResults.filter
            (fun r => r.hash = scoreHash w.seed w.modelInstanceUuid sc)).map (fun r => r.id)) ≠ [] := by
      simp [List.filter_append]
    have h := (main { w with storedResults :=
        w.storedResults ++ [⟨rid, scoreHash w.seed w.modelInstanceUuid sc⟩] }).2 hd
    refine ⟨⟨_, h.1, ?_⟩, h.2⟩
    simp [List.filter_append]
  · intro seed mid1 mid2 sc1 sc2 h
    exact scoreHash_congr seed mid1 mid2 sc1 sc2 h
  · intro mid1 mid2 sc1 sc2
    constructor
    · intro h
      simp only [resultJsonOf, JVal.jobj.injEq, List.cons.injEq, Prod.mk.injEq,
        JVal.jstr.injEq, and_true] at h
      simp only [scoreProj, Prod.mk.injEq]
      tauto
    · intro h
      simp only [scoreProj, Prod.mk.injEq] at h
      obtain ⟨h1, h2, h3, h4, h5⟩ := h
      simp only [resultJsonOf, h1, h2, h3, h4, h5]

/-- The score record of the repeated submissions: the string score value
"0.5"; its five projected fields are held fixed across the identical
attempts compared below. -/
def cxScore2 : ScoreRec :=
  ⟨.jsonVal (.jstr "0.5"), [], ⟨"model-A", true⟩, "test-uuid-1", "1 s", 1600000000, none⟩

/-- The score record with the score value changed: the string "0.5" is
replaced by a non-serialisable object whose `str()` is "0.5" (as
`decimal.Decimal("0.5")`); every other field is unchanged. -/
def cxScore2dec : ScoreRec :=
  ⟨.pyObj "0.5", [], ⟨"model-A", true⟩, "test-uuid-1", "1 s", 1600000000, none⟩

/-- The uploader environment of a second attempt in the same process (hash
seed 0): the catalog stores the first attempt's result with the hash that
seed 0 computed. -/
def cxUpWorldSame : UploadWorld :=
  ⟨"model-inst-1", "model-1", "collab-1", "ModelA",
   [⟨"res-0", scoreHash 0 "model-inst-1" cxScore2⟩], 0, "new-res-uuid"⟩

/-- The uploader environment of a second attempt in a new process (hash
seed 1): the stored hash is still the one seed 0 computed. -/
def cxUpWorldCross : UploadWorld :=
  ⟨"model-inst-1", "model-1", "collab-1", "ModelA",
   [⟨"res-0", scoreHash 0 "model-inst-1" cxScore2⟩], 1, "new-res-uuid"⟩

/-- The filesystem of the identical re-submission. -/
def cxFs2 : Fs := [(["res.pkl"], .pickle cxScore2)]

/-- The filesystem of the changed-score re-submission. -/
def cxFs2dec : Fs := [(["res.pkl"], .pickle cxScore2dec)]

set_option maxRecDepth 1000000 in
/-- C2 (counterexample): three concrete failures of the claim as stated.
First, when a stored hash does equal the fresh one, the raised error is the
bare `Exception` class with the message naming the conflicting identifier —
not a typed `DuplicateResultError` (utils.py line 362 raises `Exception`).
Second, submitting the identical score twice does not yield the refusal
when the second attempt runs in a new process: the stored hash came from
seed 0, the re-submission recomputes it under seed 1, the two strings
differ, and the duplicate is registered again. Third, changing the score
value need not change the hash nor allow upload: replacing the string score
"0.5" by a non-serialisable object printing as "0.5" is collapsed by
`default=str` onto the same serialisation, the hash is unchanged, and the
changed submission is refused as a duplicate. -/
theorem upload_dedup_counterexample :
    ((upload_test_result ["res.pkl"] "" true false cxUpWorldSame cxFs2).1 =
        .error (.genericException (dupMessage ["res-0"]))
      ∧ (match (upload_test_result ["res.pkl"] "" true false cxUpWorldSame cxFs2).1 with
         | .error e => e.isDuplicateResultError
         | .ok _ => false) = false)
    ∧ ((upload_test_result ["res.pkl"] "" true false cxUpWorldCross cxFs2).1 =
        .ok (some "new-res-uuid",
             some { cxScore2 with
                    related_data := [("project", .jstr "collab-1")],
                    score_hash := some (scoreHash 1 "model-inst-1" cxScore2) })
      ∧ scoreHash 1 "model-inst-1" cxScore2 ≠ scoreHash 0 "model-inst-1" cxScore2
      ∧ Event.registerResult ∈ (upload_test_result ["res.pkl"] "" true false cxUpWorldCross cxFs2).2.2)
    ∧ (cxScore2dec.score ≠ cxScore2.score
      ∧ scoreHash 0 "model-inst-1" cxScore2dec = scoreHash 0 "model-inst-1" cxScore2
      ∧ (upload_test_result ["res.pkl"] "" true false cxUpWorldSame cxFs2dec).1 =
          .error (.genericException (dupMessage ["res-0"]))) := by
  refine ⟨⟨rfl, rfl⟩, ⟨rfl, by decide, by decide⟩, ⟨?_, rfl, rfl⟩⟩
  simp [cxScore2dec, cxScore2]

/-- C4: `run_test` is the sequential composition of the three phases with
no branching of its own: an error of any phase is returned unchanged
together with the state and trace accumulated so far (no later phase runs,
no further effect is recorded), and on success the returned value is
exactly the uploader's (result id, score) pair. -/
theorem run_test_is_composition
    (model : ModelHandle)
    (tiid tid talias tver storage : String) (reg cl : Bool)
    (ps : List (String × JVal)) (w : RunTestWorld) (fs : Fs) :
    (∀ e fs1 t1,
      prepare_run_test_offline tiid tid talias tver cl ps w.prep fs = (.error e, fs1, t1) →
      run_test model tiid tid talias tver storage reg cl ps w fs = (.error e, fs1, t1))
    ∧ (∀ cfg fs1 t1 e fs2 t2,
      prepare_run_test_offline tiid tid talias tver cl ps w.prep fs = (.ok cfg, fs1, t1) →
      run_test_offline model cfg w.runw fs1 = (.error e, fs2, t2) →
      run_test model tiid tid talias tver storage reg cl ps w fs = (.error e, fs2, t1 ++ t2))
    ∧ (∀ cfg fs1 t1 res fs2 t2 e fs3 t3,
      prepare_run_test_offline tiid tid talias tver cl ps w.prep fs = (.ok cfg, fs1, t1) →
      run_test_offline model cfg w.runw fs1 = (.ok res, fs2, t2) →
      upload_test_result res storage reg cl w.up fs2 = (.error e, fs3, t3) →
      run_test model tiid tid talias tver storage reg cl ps w fs = (.error e, fs3, t1 ++ t2 ++ t3))
    ∧ (∀ cfg fs1 t1 res fs2 t2 out fs3 t3,
      prepare_run_test_offline tiid tid talias tver cl ps w.prep fs = (.ok cfg, fs1, t1) →
      run_test_offline model cfg w.runw fs1 = (.ok res, fs2, t2) →
      upload_test_result res storage reg cl w.up fs2 = (.ok out, fs3, t3) →
      run_test model tiid tid talias tver storage reg cl ps w fs = (.ok out, fs3, t1 ++ t2 ++ t3)) := by
  refine ⟨?_, ?_, ?_, ?_⟩ <;> intros <;> unfold run_test <;> simp_all

/-- The environment of a complete, successful `run_test` chain. -/
def cxRTWorld : RunTestWorld :=
  ⟨⟨⟨"inst-1", "test-1", "mymod.MyTest"⟩, "https://example.org/obs.txt",
    ["http", "https", "collab", "swift"], .raw "obs-data", "obs.txt",
    ["home"], "20200101-120000"⟩,
   ⟨true, .ok ⟨.jsonVal (.jstr "0.9"), []⟩, 1000000, 3500001, "20200101120000"⟩,
   ⟨"model-inst-1", "model-1", "collab-1", "ModelA", [], 0, "new-res-uuid"⟩⟩

/-- The config path the preparation phase of the concrete chain returns. -/
def cxCfgRT : FPath :=
  ["home", "hbp_validation_framework", "test-1", "20200101-120000", "test_config.json"]

/-- The observation path of the concrete chain. -/
def cxObsRT : FPath :=
  ["home", "hbp_validation_framework", "test-1", "20200101-120000", "obs.txt"]

/-- The result path the execution phase of the concrete chain returns. -/
def cxResRT : FPath :=
  ["home", "hbp_validation_framework", "test-1", "20200101-120000", "results",
   "result__hippoCircuit__20200101120000.pkl"]

/-- The score the execution phase of the concrete chain pickles. -/
def cxScRT : ScoreRec :=
  ⟨.jsonVal (.jstr "0.9"), [], ⟨"hippoCircuit", true⟩, "inst-1", "3 s", 3500001, none⟩

/-- The filesystem after the preparation phase of the concrete chain. -/
def cxFs1RT : Fs :=
  [(cxCfgRT, .json (testInfoJson ⟨"test-1", "inst-1", "mymod.MyTest", "obs.txt", []⟩)),
   (cxObsRT, .raw "obs-data")]

/-- The filesystem after the execution phase of the concrete chain. -/
def cxFs2RT : Fs := (cxResRT, .pickle cxScRT) :: cxFs1RT

/-- The trace of the preparation phase of the concrete chain. -/
def cxT1RT : List Event :=
  [.auth, .getTestInstance "" "test-1" "" "1.0", .getTestDefinition "test-1",
   .download ["home", "hbp_validation_framework", "test-1", "20200101-120000"] "obs.txt",
   .writeFile cxCfgRT]

/-- The trace of the execution phase of the concrete chain. -/
def cxT2RT : List Event :=
  [.isfile cxCfgRT, .readFile cxCfgRT, .importModule "mymod", .readFile cxObsRT,
   .judge, .mkdir ["home", "hbp_validation_framework", "test-1", "20200101-120000", "results"],
   .pickleDump cxResRT]

/-- The trace of the upload phase of the concrete chain. -/
def cxT3RT : List Event :=
  [.isfile cxResRT, .pickleLoad cxResRT, .auth, .findModelInstance,
   .getModelInstance "model-inst-1", .getModel "model-1",
   .listResults "model-inst-1" "inst-1", .registerResult]

/-- The (result id, score) pair the upload phase of the concrete chain
returns. -/
def cxOutRT : Option String × Option ScoreRec :=
  (some "new-res-uuid",
   some { cxScRT with
          related_data := [("project", JVal.jstr "collab-1")],
          score_hash := some (scoreHash 0 "model-inst-1" cxScRT) })

set_option maxRecDepth 1000000 in
/-- Witness for C4: on a concrete environment, a failing first phase
propagates its error unchanged out of `run_test` with no further effect,
and a fully successful chain returns exactly the uploader's
(result id, score) pair. -/
theorem run_test_is_composition_witness :
    run_test ⟨"hippoCircuit", true⟩ "" "" "" "" "" true false [] cxRTWorld [] =
      (.error (.genericException "test_instance_id or test_id or test_alias needs to be provided for finding test."),
       [], [Event.auth])
    ∧ (run_test ⟨"hippoCircuit", true⟩ "" "test-1" "" "1.0" "" true false [] cxRTWorld []).1 =
      .ok cxOutRT := by
  constructor
  · exact (run_test_is_composition ⟨"hippoCircuit", true⟩ "" "" "" "" "" true false [] cxRTWorld []).1
      (.genericException "test_instance_id or test_id or test_alias needs to be provided for finding test.")
      [] [Event.auth] rfl
  · have h := (run_test_is_composition ⟨"hippoCircuit", true⟩ "" "test-1" "" "1.0" "" true false [] cxRTWorld []).2.2.2
      cxCfgRT cxFs1RT cxT1RT cxResRT cxFs2RT cxT2RT cxOutRT cxFs2RT cxT3RT rfl rfl rfl
    exact congrArg Prod.fst h

/-- The pickled score of the same-process duplicate submission. -/
def cxScoreW : ScoreRec :=
  ⟨.jsonVal (.jstr "0.7"), [], ⟨"model-B", true⟩, "test-uuid-2", "2 s", 1600000123, none⟩

/-- The uploader environment of the same-process duplicate submission: the
catalog stores a result whose hash was computed by the same process (same
seed 0). -/
def cxUpWorldW : UploadWorld :=
  ⟨"model-inst-1", "model-1", "collab-1", "ModelA",
   [⟨"res-0", scoreHash 0 "model-inst-1" cxScoreW⟩], 0, "new-res-uuid"⟩

/-- The filesystem of the same-process duplicate submission. -/
def cxFsW : Fs := [(["res.pkl"], .pickle cxScoreW)]

set_option maxRecDepth 1000000 in
/-- Witness for C2: in the same process, re-submitting a score whose hash
the catalog already stores is refused with the bare `Exception` whose
message names the conflicting result id, and no registration happens. -/
theorem upload_dedup_behaviour_witness :
    (upload_test_result ["res.pkl"] "" true false cxUpWorldW cxFsW).1 =
      .error (.genericException (dupMessage ["res-0"]))
    ∧ Event.registerResult ∉ (upload_test_result ["res.pkl"] "" true false cxUpWorldW cxFsW).2.2 := by
  have h := (upload_dedup_behaviour ["res.pkl"] "" false cxUpWorldW cxFsW cxScoreW rfl).2.1
    (by decide)
  exact ⟨h.1, h.2⟩
